import Mathlib

/-!
Verification of the college filter-and-score engine (`src/appl.py`).

The program loads a CSV of colleges, cleans the two fee columns
(`clean_fee`), and, on each query, builds a boolean mask that is the
conjunction of a state equality (skipped for the "All" sentinel), a
stream equality, two inclusive fee-range predicates, and seven rating
thresholds; before the rating comparisons it re-coerces the seven rating
columns of the shared dataframe in place.  Surviving rows get a weighted
`Overall_Score` and are sorted descending by it.

Machine floats are modelled as exact rationals (ℚ); decimal literals
such as `0.2` are exact in ℚ, matching the decimal weights of the code.
-/

/-- One pandas cell: missing (NaN), a string, or a number. -/
inductive Cell where
  | na : Cell
  | str : String → Cell
  | num : ℚ → Cell
deriving DecidableEq, Repr

/-- Digits-only parse of a character list to a natural number
(`none` when empty or when any character is not a digit). -/
def parseDigits? (cs : List Char) : Option ℕ :=
  match cs with
  | [] => none
  | _ =>
    if cs.all Char.isDigit then
      some (cs.foldl (fun n c => 10 * n + (c.toNat - 48)) 0)
    else none

/-- Parse an unsigned decimal numeral, with an optional single point,
as Python `float` does on such strings (`"1."`, `".5"` accepted,
`"."`, `""`, `"1.2.3"` rejected). -/
def parseUnsigned? (cs : List Char) : Option ℚ :=
  let ip := cs.takeWhile (fun c => c ≠ '.')
  let rest := cs.dropWhile (fun c => c ≠ '.')
  match rest with
  | [] => (parseDigits? ip).map (fun n => (n : ℚ))
  | _ :: fp =>
    if ip.isEmpty && fp.isEmpty then none
    else
      match (if ip.isEmpty then some 0 else parseDigits? ip),
            (if fp.isEmpty then some 0 else parseDigits? fp) with
      | some i, some f =>
        some (mkRat (Int.ofNat (i * 10 ^ fp.length + f)) (10 ^ fp.length))
      | _, _ => none

/-- Python `float(s)` on a plain decimal string: optional sign, then an
unsigned decimal numeral.  `none` models a raised `ValueError`. -/
def parseFloat? (s : String) : Option ℚ :=
  match s.toList with
  | '-' :: cs => (parseUnsigned? cs).map (fun q => -q)
  | '+' :: cs => parseUnsigned? cs
  | cs => parseUnsigned? cs

/-- Python `s.replace(',', '')`: every comma is removed. -/
def removeCommas (s : String) : String :=
  String.mk (s.toList.filter (fun c => c ≠ ','))

/-- `clean_fee` (appl.py lines 13-17): a missing value or the `"--"`
placeholder maps to `0.0`; otherwise commas are removed and the string
is converted with `float`, which raises (`none`) on non-numeric input.
A numeric cell round-trips through `float(str(x))` unchanged. -/
def clean_fee (c : Cell) : Option ℚ :=
  match c with
  | Cell.na => some 0
  | Cell.num q => some q
  | Cell.str s => if s = "--" then some 0 else parseFloat? (removeCommas s)

/-- Per-cell effect of the query-time rating coercion
(appl.py line 114): `replace('--','0')`, `pd.to_numeric(errors='coerce')`,
`.fillna(0)` — the value a rating cell holds after coercion. -/
def toRating (c : Cell) : ℚ :=
  match c with
  | Cell.na => 0
  | Cell.num q => q
  | Cell.str s => if s = "--" then 0 else (parseFloat? s).getD 0

/-- A row of the loaded dataframe: fee columns already cleaned to
numbers by `load_data`, rating columns still raw cells (they are only
coerced inside the query handler). -/
structure Row where
  College_Name : String
  State : String
  Stream : String
  UG_fee : ℚ
  PG_fee : ℚ
  Rating : Cell
  Academic : Cell
  Accommodation : Cell
  Faculty : Cell
  Infrastructure : Cell
  Placement : Cell
  Social_Life : Cell
deriving DecidableEq, Repr

/-- The filter parameters collected by the UI for one query. -/
structure Criteria where
  state : String
  stream : String
  ug_lo : ℚ
  ug_hi : ℚ
  pg_lo : ℚ
  pg_hi : ℚ
  min_rating : ℚ
  min_academic : ℚ
  min_accommodation : ℚ
  min_faculty : ℚ
  min_infrastructure : ℚ
  min_placement : ℚ
  min_social : ℚ
deriving DecidableEq, Repr

/-- `Series.between(lo, hi)` with the default `inclusive='both'`. -/
def feeBetween (lo hi q : ℚ) : Bool :=
  decide (lo ≤ q) && decide (q ≤ hi)

/-- The query-time in-place coercion of the seven rating columns
(appl.py lines 110-114), restricted to one row: each rating cell is
replaced by its numeric value. -/
def coerceRow (r : Row) : Row :=
  { r with
    Rating := Cell.num (toRating r.Rating)
    Academic := Cell.num (toRating r.Academic)
    Accommodation := Cell.num (toRating r.Accommodation)
    Faculty := Cell.num (toRating r.Faculty)
    Infrastructure := Cell.num (toRating r.Infrastructure)
    Placement := Cell.num (toRating r.Placement)
    Social_Life := Cell.num (toRating r.Social_Life) }

/-- The coercion loop over the whole shared dataframe. -/
def coerceTable (df : List Row) : List Row :=
  df.map coerceRow

/-- The conjunction `mask` of appl.py lines 100-123 evaluated at one
row: state equality unless the `"All"` sentinel is selected, stream
equality, both inclusive fee ranges, and the seven rating thresholds
(the rating comparisons read the coerced column, i.e. `toRating` of the
cell). -/
def rowMask (cr : Criteria) (r : Row) : Bool :=
  (cr.state == "All" || r.State == cr.state) &&
  (r.Stream == cr.stream) &&
  feeBetween cr.ug_lo cr.ug_hi r.UG_fee &&
  feeBetween cr.pg_lo cr.pg_hi r.PG_fee &&
  decide (cr.min_rating ≤ toRating r.Rating) &&
  decide (cr.min_academic ≤ toRating r.Academic) &&
  decide (cr.min_accommodation ≤ toRating r.Accommodation) &&
  decide (cr.min_faculty ≤ toRating r.Faculty) &&
  decide (cr.min_infrastructure ≤ toRating r.Infrastructure) &&
  decide (cr.min_placement ≤ toRating r.Placement) &&
  decide (cr.min_social ≤ toRating r.Social_Life)

/-- The weighted score of appl.py lines 129-137, computed on a row of
the filtered (hence already coerced) dataframe. -/
def overallScore (r : Row) : ℚ :=
  toRating r.Rating * 0.2 +
  toRating r.Academic * 0.2 +
  toRating r.Placement * 0.15 +
  toRating r.Infrastructure * 0.15 +
  toRating r.Faculty * 0.1 +
  toRating r.Accommodation * 0.1 +
  toRating r.Social_Life * 0.1

/-- A filtered row together with its derived `Overall_Score` column. -/
structure ScoredRow where
  row : Row
  Overall_Score : ℚ
deriving DecidableEq, Repr

/-- Descending-by-score order used by `sort_values("Overall_Score",
ascending=False)`. -/
def scoreGE (a b : ScoredRow) : Prop :=
  b.Overall_Score ≤ a.Overall_Score

instance : DecidableRel scoreGE := fun a b =>
  inferInstanceAs (Decidable (b.Overall_Score ≤ a.Overall_Score))

instance : IsTotal ScoredRow scoreGE :=
  ⟨fun a b => le_total b.Overall_Score a.Overall_Score⟩

instance : IsTrans ScoredRow scoreGE :=
  ⟨fun _ _ _ h1 h2 => le_trans h2 h1⟩

/-- `sort_values("Overall_Score", ascending=False)`: a sort by the
descending-score order (ties left exchangeable by the claim). -/
def sortDesc (l : List ScoredRow) : List ScoredRow :=
  l.insertionSort scoreGE

/-- One "Find Colleges" query (appl.py lines 98-140): coerce the seven
rating columns of the shared dataframe in place, filter it with the
conjunction mask, attach `Overall_Score`, and sort descending.  Returns
the shared dataframe as it is left after the query, and the ranked
result. -/
def runQuery (cr : Criteria) (df : List Row) : List Row × List ScoredRow :=
  let df2 := coerceTable df
  let filtered := df2.filter (rowMask cr)
  let scored := filtered.map (fun r => ⟨r, overallScore r⟩)
  (df2, sortDesc scored)

/-! ## The loader (`load_data`, appl.py lines 24-34)

`load_data` reads the CSV, cleans the two fee columns, and catches only
`FileNotFoundError` (surfacing a message and returning `None`); a
missing fee column raises an uncaught `KeyError`, and a fee cell that
`float` cannot parse raises an uncaught `ValueError`. -/

/-- A raw CSV as `pd.read_csv` delivers it: a header of column names
and the rows of cells. -/
structure RawCSV where
  header : List String
  rows : List (List Cell)
deriving DecidableEq, Repr

/-- An exception that escapes `load_data` uncaught. -/
inductive PyError where
  | keyError : String → PyError
  | valueError : PyError
deriving DecidableEq, Repr

/-- Outcome of `load_data`: a dataframe, the handled file-not-found
path (error message shown, `None` returned), or an uncaught
exception. -/
inductive LoadOutcome where
  | ok : RawCSV → LoadOutcome
  | notFound : LoadOutcome
  | raised : PyError → LoadOutcome
deriving DecidableEq, Repr

/-- `df[name]`: the column of that name (first matching header entry),
`none` when the column is absent (pandas `KeyError`).  Returns the
column index together with the cells. -/
def getColumn? (t : RawCSV) (name : String) : Option (ℕ × List Cell) :=
  match t.header.findIdx? (fun h => h == name) with
  | none => none
  | some i => some (i, t.rows.map (fun r => r.getD i Cell.na))

/-- `df[name] = vals`: overwrite column `i` in every row. -/
def setColumn (t : RawCSV) (i : ℕ) (vals : List Cell) : RawCSV :=
  { t with rows := (t.rows.zip vals).map (fun p => p.1.set i p.2) }

/-- `.apply(clean_fee)` over a column; `none` when any cell makes
`clean_fee` raise. -/
def cleanColumn? (cells : List Cell) : Option (List Cell) :=
  match cells with
  | [] => some []
  | c :: cs =>
    match clean_fee c, cleanColumn? cs with
    | some q, some rest => some (Cell.num q :: rest)
    | _, _ => none

/-- `load_data` (appl.py lines 24-34): an absent file is the handled
`notFound` path; then `df['UG_fee']` and `df['PG_fee']` are cleaned in
turn, raising `KeyError` when a column is absent and `ValueError` when
a fee cell is unparsable.  Only `FileNotFoundError` is caught. -/
def load (source : Option RawCSV) : LoadOutcome :=
  match source with
  | none => LoadOutcome.notFound
  | some t =>
    match getColumn? t "UG_fee" with
    | none => LoadOutcome.raised (PyError.keyError "UG_fee")
    | some (i, ug) =>
      match cleanColumn? ug with
      | none => LoadOutcome.raised PyError.valueError
      | some ug2 =>
        let t2 := setColumn t i ug2
        match getColumn? t2 "PG_fee" with
        | none => LoadOutcome.raised (PyError.keyError "PG_fee")
        | some (j, pg) =>
          match cleanColumn? pg with
          | none => LoadOutcome.raised PyError.valueError
          | some pg2 => LoadOutcome.ok (setColumn t2 j pg2)

/-- The `df is not None` guard (appl.py line 39): queries are reachable
only when `load_data` returned a dataframe. -/
def queriesPossible (o : LoadOutcome) : Bool :=
  match o with
  | LoadOutcome.ok _ => true
  | _ => false

/-! ## Spec-side predicate (for the refinement claim C1) -/

/-- Modelled from the spec (§4.2): the flat conjunction of the active
predicates — state equality unless the "All" sentinel, stream equality,
both inclusive fee ranges, and the seven rating thresholds.  Written
from the spec's words, to be compared with the code's `rowMask`. -/
def satisfiesCriteria (cr : Criteria) (r : Row) : Prop :=
  (cr.state = "All" ∨ r.State = cr.state) ∧
  r.Stream = cr.stream ∧
  (cr.ug_lo ≤ r.UG_fee ∧ r.UG_fee ≤ cr.ug_hi) ∧
  (cr.pg_lo ≤ r.PG_fee ∧ r.PG_fee ≤ cr.pg_hi) ∧
  cr.min_rating ≤ toRating r.Rating ∧
  cr.min_academic ≤ toRating r.Academic ∧
  cr.min_accommodation ≤ toRating r.Accommodation ∧
  cr.min_faculty ≤ toRating r.Faculty ∧
  cr.min_infrastructure ≤ toRating r.Infrastructure ∧
  cr.min_placement ≤ toRating r.Placement ∧
  cr.min_social ≤ toRating r.Social_Life

/-! ## Scenario data (two-row end-to-end test of §8, and counterexample
inputs) -/

/-- Row A of the end-to-end scenario: Stream "CS", all ratings 10. -/
def rowAllTens : Row :=
  ⟨"A", "S1", "CS", 0, 0, Cell.num 10, Cell.num 10, Cell.num 10,
   Cell.num 10, Cell.num 10, Cell.num 10, Cell.num 10⟩

/-- Row B of the end-to-end scenario: Stream "CS", all ratings 0. -/
def rowAllZeros : Row :=
  ⟨"B", "S1", "CS", 0, 0, Cell.num 0, Cell.num 0, Cell.num 0,
   Cell.num 0, Cell.num 0, Cell.num 0, Cell.num 0⟩

/-- The scenario criteria: any state, Stream "CS", fee ranges [0,0],
all thresholds 0. -/
def crScenario : Criteria :=
  ⟨"All", "CS", 0, 0, 0, 0, 0, 0, 0, 0, 0, 0, 0⟩

/-- A row whose `Rating` cell still holds the raw `"--"` placeholder
(and a missing `Academic` cell). -/
def rowRawDashes : Row :=
  ⟨"D", "S1", "CS", 0, 0, Cell.str "--", Cell.na, Cell.num 3,
   Cell.num 3, Cell.num 3, Cell.num 3, Cell.num 3⟩

/-! ## Helper lemmas -/

theorem toRating_num (q : ℚ) : toRating (Cell.num q) = q := rfl

theorem coerceRow_idem (r : Row) : coerceRow (coerceRow r) = coerceRow r := by
  simp [coerceRow, toRating]

theorem coerceTable_idem (df : List Row) :
    coerceTable (coerceTable df) = coerceTable df := by
  simp [coerceTable, List.map_map, Function.comp_def, coerceRow_idem]

theorem rowMask_eq_true_iff (cr : Criteria) (r : Row) :
    rowMask cr r = true ↔ satisfiesCriteria cr r := by
  simp [rowMask, satisfiesCriteria, feeBetween, Bool.and_eq_true,
    Bool.or_eq_true, decide_eq_true_eq, and_assoc]

theorem mem_sortDesc {s : ScoredRow} {l : List ScoredRow} :
    s ∈ sortDesc l ↔ s ∈ l :=
  (List.perm_insertionSort scoreGE l).mem_iff

theorem mem_runQuery_res {cr : Criteria} {df : List Row} {s : ScoredRow}
    (h : s ∈ (runQuery cr df).2) :
    s.row ∈ coerceTable df ∧ rowMask cr s.row = true ∧
      s.Overall_Score = overallScore s.row := by
  unfold runQuery at h
  simp only [mem_sortDesc, List.mem_map, List.mem_filter] at h
  obtain ⟨r, ⟨hmem, hmask⟩, hs⟩ := h
  subst hs
  exact ⟨hmem, hmask, rfl⟩

/-! ## Concrete inputs for the load-level claims -/

/-- A CSV whose fee cells hold the placeholder and a comma-separated
amount. -/
def csvFees : RawCSV :=
  ⟨["College_Name", "UG_fee", "PG_fee"],
   [[Cell.str "X", Cell.str "--", Cell.str "1,23,456"]]⟩

/-- `csvFees` as `load` leaves it: fees cleaned to numbers. -/
def csvFeesLoaded : RawCSV :=
  ⟨["College_Name", "UG_fee", "PG_fee"],
   [[Cell.str "X", Cell.num 0, Cell.num 123456]]⟩

/-- A CSV with a non-numeric fee cell that is not the placeholder. -/
def csvBadFee : RawCSV :=
  ⟨["UG_fee", "PG_fee"], [[Cell.str "abc", Cell.num 1]]⟩

/-- A CSV missing the required `UG_fee` column. -/
def csvNoUGfee : RawCSV :=
  ⟨["College_Name", "PG_fee"], [[Cell.str "X", Cell.num 1]]⟩

/-- A CSV with a negative fee amount. -/
def csvNegFee : RawCSV :=
  ⟨["UG_fee", "PG_fee"], [[Cell.str "-5", Cell.num 1]]⟩

/-- `csvNegFee` as `load` leaves it. -/
def csvNegFeeLoaded : RawCSV :=
  ⟨["UG_fee", "PG_fee"], [[Cell.num (-5), Cell.num 1]]⟩

/-- Criteria whose UG and PG fee ranges both have min greater than
max. -/
def crBadRange : Criteria :=
  ⟨"All", "CS", 100, 50, 100, 50, 0, 0, 0, 0, 0, 0, 0⟩

/-! ## The claims -/

/-- Claim C1: every record in the filtered result satisfies every
active predicate (state equality unless the "All" sentinel, stream
equality, both inclusive fee ranges, all seven rating thresholds); the
mask is exactly this flat conjunction of predicates; the result rows
are members of the shared table as the query leaves it, hence of the
input table whenever its rating cells are already coerced. -/
theorem filter_conjunction_sound (cr : Criteria) (df : List Row) :
    (∀ r : Row, rowMask cr r = true ↔ satisfiesCriteria cr r) ∧
    (∀ s ∈ (runQuery cr df).2,
      satisfiesCriteria cr s.row ∧ s.row ∈ (runQuery cr df).1) ∧
    (coerceTable df = df → ∀ s ∈ (runQuery cr df).2, s.row ∈ df) := by
  refine ⟨fun r => rowMask_eq_true_iff cr r, ?_, ?_⟩
  · intro s hs
    obtain ⟨hmem, hmask, _⟩ := mem_runQuery_res hs
    exact ⟨(rowMask_eq_true_iff cr s.row).mp hmask, hmem⟩
  · intro hfix s hs
    obtain ⟨hmem, _, _⟩ := mem_runQuery_res hs
    rwa [hfix] at hmem

/-- Witness for C1 at the two-row scenario: the top-ranked record
satisfies the whole conjunction and belongs to the table. -/
theorem filter_conjunction_sound_witness :
    (satisfiesCriteria crScenario (coerceRow rowAllTens) ∧
      coerceRow rowAllTens ∈ (runQuery crScenario [rowAllTens, rowAllZeros]).1) ∧
    coerceRow rowAllTens ∈ [coerceRow rowAllTens] := by
  refine ⟨?_, ?_⟩
  · have h := (filter_conjunction_sound crScenario [rowAllTens, rowAllZeros]).2.1
      ⟨coerceRow rowAllTens, 10⟩ (by with_unfolding_all decide)
    exact ⟨h.1, h.2⟩
  · exact (filter_conjunction_sound crScenario [coerceRow rowAllTens]).2.2
      (by decide) ⟨coerceRow rowAllTens, overallScore (coerceRow rowAllTens)⟩
      (by with_unfolding_all decide)

/-- Claim C2: every surviving record's `Overall_Score` is exactly the
weighted sum 0.20·Rating + 0.20·Academic + 0.15·Placement +
0.15·Infrastructure + 0.10·Faculty + 0.10·Accommodation +
0.10·Social_Life; an all-10 record scores 10 and an all-0 record scores
0, and the two-row end-to-end scenario returns both rows with the
all-10 row first. -/
theorem score_is_weighted_sum (cr : Criteria) (df : List Row) :
    (∀ s ∈ (runQuery cr df).2,
      s.Overall_Score =
        0.2 * toRating s.row.Rating + 0.2 * toRating s.row.Academic +
        0.15 * toRating s.row.Placement +
        0.15 * toRating s.row.Infrastructure +
        0.1 * toRating s.row.Faculty + 0.1 * toRating s.row.Accommodation +
        0.1 * toRating s.row.Social_Life) ∧
    overallScore rowAllTens = 10 ∧ overallScore rowAllZeros = 0 ∧
    (runQuery crScenario [rowAllTens, rowAllZeros]).2 =
      [⟨coerceRow rowAllTens, 10⟩, ⟨coerceRow rowAllZeros, 0⟩] := by
  refine ⟨?_, by with_unfolding_all decide, by with_unfolding_all decide,
    by with_unfolding_all decide⟩
  intro s hs
  obtain ⟨_, _, hsc⟩ := mem_runQuery_res hs
  rw [hsc]; unfold overallScore; ring

/-- Witness for C2: the score equation instantiated at the top-ranked
scenario record. -/
theorem score_is_weighted_sum_witness :
    (⟨coerceRow rowAllTens, 10⟩ : ScoredRow).Overall_Score =
      0.2 * toRating (coerceRow rowAllTens).Rating +
      0.2 * toRating (coerceRow rowAllTens).Academic +
      0.15 * toRating (coerceRow rowAllTens).Placement +
      0.15 * toRating (coerceRow rowAllTens).Infrastructure +
      0.1 * toRating (coerceRow rowAllTens).Faculty +
      0.1 * toRating (coerceRow rowAllTens).Accommodation +
      0.1 * toRating (coerceRow rowAllTens).Social_Life :=
  (score_is_weighted_sum crScenario [rowAllTens, rowAllZeros]).1
    ⟨coerceRow rowAllTens, 10⟩ (by with_unfolding_all decide)

/-- Claim C3: the ranked output is sorted descending by
`Overall_Score` — every adjacent pair (a, b) has
a.Overall_Score ≥ b.Overall_Score. -/
theorem ranked_output_sorted (cr : Criteria) (df : List Row) :
    List.Chain' (fun a b : ScoredRow => b.Overall_Score ≤ a.Overall_Score)
      (runQuery cr df).2 := by
  have h : List.Sorted scoreGE (runQuery cr df).2 :=
    List.sorted_insertionSort scoreGE _
  exact List.Pairwise.chain' h

/-- Counterexample to C4: on a table whose `Rating` cell holds the raw
`"--"` placeholder, the query rewrites the shared table, so the source
table is not unchanged. -/
theorem query_mutates_counterexample :
    (runQuery crScenario [rowRawDashes]).1 ≠ [rowRawDashes] := by decide

/-- Claim C4 as amended: a query leaves `College_Name`, `State`,
`Stream`, `UG_fee` and `PG_fee` of every row unchanged, but overwrites
the seven rating columns of the shared table with their coerced numeric
values; the rewrite is idempotent, so the table the query leaves behind
is a fixed point of the coercion. -/
theorem query_mutation_extent (cr : Criteria) (df : List Row) :
    ((runQuery cr df).1.map
        (fun r => (r.College_Name, r.State, r.Stream, r.UG_fee, r.PG_fee)) =
      df.map
        (fun r => (r.College_Name, r.State, r.Stream, r.UG_fee, r.PG_fee))) ∧
    (runQuery cr df).1 = df.map coerceRow ∧
    coerceTable ((runQuery cr df).1) = (runQuery cr df).1 := by
  refine ⟨?_, rfl, coerceTable_idem df⟩
  show (coerceTable df).map _ = _
  simp only [coerceTable, List.map_map]
  rfl

/-- Claim C10: the rating re-coercion is idempotent — it leaves an
already-numeric cell unchanged — so running the same query again over
the table the first run left behind returns the identical table and the
identical ranked result. -/
theorem requery_idempotent :
    (∀ q : ℚ, toRating (Cell.num q) = q) ∧
    (∀ (cr : Criteria) (df : List Row),
      runQuery cr ((runQuery cr df).1) = runQuery cr df) := by
  refine ⟨fun q => rfl, fun cr df => ?_⟩
  show runQuery cr (coerceTable df) = runQuery cr df
  unfold runQuery
  rw [coerceTable_idem]

/-- Claim C5: fee normalization at load time — a missing fee cell or
the `"--"` placeholder maps to 0.0, commas are removed before the float
conversion, so `"--"` normalizes to 0.0 and `"1,23,456"` to 123456.0;
`load` applies exactly this to both fee columns. -/
theorem fee_normalization :
    clean_fee Cell.na = some 0 ∧
    clean_fee (Cell.str "--") = some 0 ∧
    removeCommas "1,23,456" = "123456" ∧
    clean_fee (Cell.str "1,23,456") = some 123456 ∧
    load (some csvFees) = LoadOutcome.ok csvFeesLoaded := by
  exact ⟨rfl, by decide, by decide, by decide, by decide⟩

/-- Claim C6: with a degenerate UG fee range (min = max = v) every
returned record has `UG_fee` exactly v, and the between-predicate at
(v, v) accepts exactly the value v (inclusive on both ends); with an
inverted range (max < min, for either fee) the query returns the empty
result rather than an error. -/
theorem fee_range_edge_cases (cr : Criteria) (df : List Row) (v : ℚ) :
    (cr.ug_lo = v → cr.ug_hi = v →
      ∀ s ∈ (runQuery cr df).2, s.row.UG_fee = v) ∧
    (∀ q : ℚ, feeBetween v v q = true ↔ q = v) ∧
    (cr.ug_hi < cr.ug_lo → (runQuery cr df).2 = []) ∧
    (cr.pg_hi < cr.pg_lo → (runQuery cr df).2 = []) := by
  have hmask : ∀ r : Row, rowMask cr r = true →
      (cr.ug_lo ≤ r.UG_fee ∧ r.UG_fee ≤ cr.ug_hi) ∧
      (cr.pg_lo ≤ r.PG_fee ∧ r.PG_fee ≤ cr.pg_hi) := by
    intro r hm
    have h := (rowMask_eq_true_iff cr r).mp hm
    exact ⟨h.2.2.1, h.2.2.2.1⟩
  refine ⟨?_, ?_, ?_, ?_⟩
  · intro h1 h2 s hs
    obtain ⟨_, hm, _⟩ := mem_runQuery_res hs
    obtain ⟨⟨hlo, hhi⟩, _⟩ := hmask s.row hm
    exact le_antisymm (h2 ▸ hhi) (h1 ▸ hlo)
  · intro q
    simp only [feeBetween, Bool.and_eq_true, decide_eq_true_eq]
    exact ⟨fun h => le_antisymm h.2 h.1, fun h => ⟨h.ge, h.le⟩⟩
  · intro h
    have hf : (coerceTable df).filter (rowMask cr) = [] := by
      refine List.filter_eq_nil_iff.mpr (fun r _ hm => ?_)
      obtain ⟨⟨hlo, hhi⟩, _⟩ := hmask r hm
      exact absurd (le_trans hlo hhi) (not_le.mpr h)
    show sortDesc (((coerceTable df).filter (rowMask cr)).map
      (fun r => ⟨r, overallScore r⟩)) = []
    rw [hf]
    rfl
  · intro h
    have hf : (coerceTable df).filter (rowMask cr) = [] := by
      refine List.filter_eq_nil_iff.mpr (fun r _ hm => ?_)
      obtain ⟨_, ⟨hlo, hhi⟩⟩ := hmask r hm
      exact absurd (le_trans hlo hhi) (not_le.mpr h)
    show sortDesc (((coerceTable df).filter (rowMask cr)).map
      (fun r => ⟨r, overallScore r⟩)) = []
    rw [hf]
    rfl

/-- Witness for C6: the degenerate range [0,0] of the scenario criteria
forces `UG_fee` 0 on the returned scenario record, and the inverted
range (100, 50) empties the result. -/
theorem fee_range_edge_cases_witness :
    (coerceRow rowAllTens).UG_fee = 0 ∧
    (runQuery crBadRange [rowAllTens]).2 = [] ∧
    (runQuery crBadRange [rowAllZeros]).2 = [] := by
  refine ⟨?_, ?_, ?_⟩
  · exact (fee_range_edge_cases crScenario [rowAllTens] 0).1 rfl rfl
      ⟨coerceRow rowAllTens, 10⟩ (by with_unfolding_all decide)
  · exact (fee_range_edge_cases crBadRange [rowAllTens] 0).2.2.1 (by decide)
  · exact (fee_range_edge_cases crBadRange [rowAllZeros] 0).2.2.2 (by decide)

/-- Counterexample to C7: a fee cell `"abc"` is malformed but is not
silently defaulted — `clean_fee` raises `ValueError` out of `load_data`
(only `FileNotFoundError` is caught), so load does not succeed. -/
theorem malformed_fee_raises_counterexample :
    load (some csvBadFee) = LoadOutcome.raised PyError.valueError ∧
    queriesPossible (load (some csvBadFee)) = false := by decide

/-- Claim C7 as amended: leniency is real for rating cells (any
non-numeric content or the placeholder coerces silently to 0.0 at query
time) and for missing or placeholder fee cells; but a fee cell with any
other non-numeric content raises an uncaught `ValueError` and load
fails. -/
theorem parse_leniency_extent :
    (∀ s : String, parseFloat? s = none → s ≠ "--" →
      toRating (Cell.str s) = 0) ∧
    toRating Cell.na = 0 ∧ toRating (Cell.str "--") = 0 ∧
    clean_fee Cell.na = some 0 ∧ clean_fee (Cell.str "--") = some 0 ∧
    load (some csvBadFee) = LoadOutcome.raised PyError.valueError := by
  refine ⟨?_, rfl, by decide, rfl, by decide, by decide⟩
  intro s hp hne
  simp [toRating, hne, hp]

/-- Witness for C7 (amended) at the malformed rating content "abc". -/
theorem parse_leniency_extent_witness :
    parseFloat? "abc" = none ∧ toRating (Cell.str "abc") = 0 :=
  ⟨by decide, parse_leniency_extent.1 "abc" (by decide) (by decide)⟩

/-- Counterexample to C8: a source table without the required `UG_fee`
column makes `load` raise an uncaught `KeyError` — it is not surfaced
as a handled user-visible message the way the missing-file case is. -/
theorem missing_column_raises_counterexample :
    load (some csvNoUGfee) = LoadOutcome.raised (PyError.keyError "UG_fee") ∧
    load (some csvNoUGfee) ≠ LoadOutcome.notFound := by decide

/-- Claim C8 as amended: an absent source file is the one handled load
failure (user-visible message, queries impossible); an absent required
column instead raises an uncaught `KeyError` (also leaving queries
impossible) — there is no handled `Malformed` path. -/
theorem load_error_taxonomy :
    (load none = LoadOutcome.notFound ∧ queriesPossible (load none) = false) ∧
    (∀ t : RawCSV, getColumn? t "UG_fee" = none →
      load (some t) = LoadOutcome.raised (PyError.keyError "UG_fee") ∧
      queriesPossible (load (some t)) = false) := by
  refine ⟨⟨rfl, rfl⟩, fun t h => ?_⟩
  simp [load, h, queriesPossible]

/-- Witness for C8 (amended) at the concrete column-free table. -/
theorem load_error_taxonomy_witness :
    getColumn? csvNoUGfee "UG_fee" = none ∧
    load (some csvNoUGfee) = LoadOutcome.raised (PyError.keyError "UG_fee") :=
  ⟨by decide, (load_error_taxonomy.2 csvNoUGfee (by decide)).1⟩

/-- Counterexample to C9: the loader accepts the fee string `"-5"` and
normalizes it to the negative number -5, so not every normalized
numeric field is ≥ 0. -/
theorem negative_fee_counterexample :
    load (some csvNegFee) = LoadOutcome.ok csvNegFeeLoaded ∧
    (csvNegFeeLoaded.rows.getD 0 []).getD 0 Cell.na = Cell.num (-5) ∧
    ¬ (0 : ℚ) ≤ (-5 : ℚ) := by
  refine ⟨by decide, by decide, by norm_num⟩

/-- Claim C9 as amended: after normalization no sentinel "missing"
marker remains — every cell a successfully cleaned fee column holds is
numeric, every rating cell is numeric after the query-time coercion,
and the placeholder and missing markers map to 0 — but values are not
guaranteed to be ≥ 0. -/
theorem normalization_invariant :
    (∀ cells out : List Cell, cleanColumn? cells = some out →
      ∀ c ∈ out, ∃ q : ℚ, c = Cell.num q) ∧
    (∀ df : List Row, ∀ r ∈ coerceTable df,
      (∃ q, r.Rating = Cell.num q) ∧ (∃ q, r.Academic = Cell.num q) ∧
      (∃ q, r.Accommodation = Cell.num q) ∧ (∃ q, r.Faculty = Cell.num q) ∧
      (∃ q, r.Infrastructure = Cell.num q) ∧
      (∃ q, r.Placement = Cell.num q) ∧
      (∃ q, r.Social_Life = Cell.num q)) ∧
    clean_fee Cell.na = some 0 ∧ clean_fee (Cell.str "--") = some 0 ∧
    toRating Cell.na = 0 ∧ toRating (Cell.str "--") = 0 ∧
    load (some csvFees) = LoadOutcome.ok csvFeesLoaded := by
  refine ⟨?_, ?_, rfl, by decide, rfl, by decide, by decide⟩
  · intro cells
    induction cells with
    | nil =>
      intro out h c hc
      unfold cleanColumn? at h
      injection h with h
      subst h
      exact absurd hc (List.not_mem_nil c)
    | cons c0 cs ih =>
      intro out h c hc
      unfold cleanColumn? at h
      cases hq : clean_fee c0 with
      | none => rw [hq] at h; exact absurd h (by simp)
      | some q =>
        cases hrest : cleanColumn? cs with
        | none => rw [hq, hrest] at h; exact absurd h (by simp)
        | some rest =>
          rw [hq, hrest] at h
          simp only [Option.some.injEq] at h
          subst h
          rcases List.mem_cons.mp hc with hcl | hcl
          · exact ⟨q, hcl⟩
          · exact ih rest hrest c hcl
  · intro df r hr
    obtain ⟨x, _, rfl⟩ := List.mem_map.mp hr
    exact ⟨⟨_, rfl⟩, ⟨_, rfl⟩, ⟨_, rfl⟩, ⟨_, rfl⟩, ⟨_, rfl⟩, ⟨_, rfl⟩,
      ⟨_, rfl⟩⟩

/-- Witness for C9 (amended): a concrete cleaned column and a concrete
coerced row are entirely numeric. -/
theorem normalization_invariant_witness :
    (∃ q : ℚ, Cell.num (0 : ℚ) = Cell.num q) ∧
    (∃ q : ℚ, (coerceRow rowRawDashes).Rating = Cell.num q) := by
  constructor
  · exact normalization_invariant.1 [Cell.str "--", Cell.num 7]
      [Cell.num 0, Cell.num 7] (by decide) (Cell.num 0) (by decide)
  · exact (normalization_invariant.2.1 [rowRawDashes]
      (coerceRow rowRawDashes) (by decide)).1
